import Mathlib

/-!
Shallow embedding of dbm/helpers.py: the scripting-helper library of the
zeighami-etal-2019 pipeline (path suffix insertion, external-program gating,
the ScriptHelper execution context and the with_helper scoped-run wrapper).

Terminal output and subprocess spawning are modelled as an event trace;
Python exceptions are modelled by an explicit error type threaded through
the control flow (SystemExit is distinguished because `except Exception`
does not catch it while `finally` still runs).
-/

/-! ## Python string primitives (code-point based, as in CPython) -/

/-- Python `s[n:]` (slicing by code points). -/
def strDrop (s : String) (n : Nat) : String :=
  String.mk (s.toList.drop n)

/-- Python `s[:n]` (slicing by code points). -/
def strTake (s : String) (n : Nat) : String :=
  String.mk (s.toList.take n)

/-- Python `s.startswith(p)`. -/
def strStartsWith (s p : String) : Bool :=
  p.toList.isPrefixOf s.toList

/-- Python `s.endswith(p)`. -/
def strEndsWith (s p : String) : Bool :=
  p.toList.isSuffixOf s.toList

/-- Python `len(s)` (code points). -/
def strLen (s : String) : Nat :=
  s.toList.length

/-- Python `str.removesuffix`: drop `suf` from the end when it is a
nonempty suffix, otherwise return the string unchanged. -/
def removesuffix (s suf : String) : String :=
  if suf ≠ "" ∧ strEndsWith s suf then strTake s (strLen s - strLen suf) else s

/-- Python `symbol * n` for strings (n-fold repetition). -/
def strRepeat (s : String) (n : Nat) : String :=
  String.mk ((List.replicate n s.toList).flatten)

/-- Index of the last '.' in a list of characters (Python `name.rfind('.')`,
with `none` standing for -1). -/
def lastDotIdx (l : List Char) : Option Nat :=
  match l.reverse.findIdx? (fun c => c = '.') with
  | none => none
  | some j => some (l.length - 1 - j)

/-! ## pathlib model

A relative POSIX path is its list of components (pathlib normalizes away
empty components; `[]` is `Path('.')`).  File names are opaque single
components: the model covers names without '/' in them. -/

structure PyPath where
  parts : List String
deriving DecidableEq

/-- pathlib `Path.name`: the final component, `""` for `Path('.')`. -/
def PyPath.name (p : PyPath) : String :=
  (p.parts.getLast?).getD ""

/-- The CPython stem/suffix split of a file name (as a character list): the
suffix is `name[i:]` for the last dot index `i` when
`0 < i < len(name) - 1`, else empty. -/
def pyNameSplitL (l : List Char) : List Char × List Char :=
  match lastDotIdx l with
  | some i =>
      if 0 < i ∧ i < l.length - 1 then (l.take i, l.drop i)
      else (l, [])
  | none => (l, [])

/-- The CPython stem/suffix split of a file name. -/
def pyNameSplit (n : String) : String × String :=
  (String.mk (pyNameSplitL n.toList).1, String.mk (pyNameSplitL n.toList).2)

/-- pathlib `Path.stem`. -/
def PyPath.stem (p : PyPath) : String :=
  (pyNameSplit p.name).1

/-- pathlib `Path.suffix`. -/
def PyPath.suffix (p : PyPath) : String :=
  (pyNameSplit p.name).2

/-- pathlib `Path.parent` (for relative paths: drop the final component;
`Path('.').parent = Path('.')`). -/
def PyPath.parent (p : PyPath) : PyPath :=
  ⟨p.parts.dropLast⟩

/-- pathlib `p / s` for a single-component (slash-free) name `s`;
joining the empty string is the identity, as in pathlib. -/
def PyPath.join (p : PyPath) (s : String) : PyPath :=
  if s = "" then p else ⟨p.parts ++ [s]⟩

/-- Python `str(path)` for relative paths. -/
def pyPathStr (p : PyPath) : String :=
  if p.parts = [] then "." else String.intercalate "/" p.parts

/-! ## helpers.py module constants -/

def PREFIX_RUN : String := "[RUN] "
def PREFIX_ERROR : String := "[ERROR] "
def DONE_MESSAGE : String := "[SUCCESS]"
def SEP_SUFFIX : String := "-"

/-- helpers.py `add_suffix(path, suffix, sep=SEP_SUFFIX, ext=None)`:
strip a leading separator from the suffix (when a separator is given),
compute the stem/extension split (from `ext` via `str(path).removesuffix`
when given, else from the single-part pathlib suffix), and rebuild
`path.parent / f"{stem}{sep}{suffix}{ext}"`. -/
def add_suffix (path : PyPath) (suffix : String) (sep : Option String)
    (ext : Option String) : PyPath :=
  let sepSuffix :=
    match sep with
    | some sp =>
        if strStartsWith suffix sp then (sp, strDrop suffix (strLen sp))
        else (sp, suffix)
    | none => ("", suffix)
  let stemExt :=
    match ext with
    | some e => (removesuffix (pyPathStr path) e, e)
    | none => (path.stem, path.suffix)
  path.parent.join (stemExt.1 ++ sepSuffix.1 ++ sepSuffix.2 ++ stemExt.2)

/-! ## Python errors -/

/-- The Python exceptions raised in helpers.py, plus `SystemExit`
(raised by `sys.exit`).  `except Exception` catches everything except
`SystemExit`. -/
inductive PyErr where
  | runtimeError (msg : String)
  | fileExistsError (msg : String)
  | systemExit (code : Int)
  | exn (tag : String)
deriving DecidableEq

/-- Whether `except Exception` catches this error (everything but
`SystemExit`). -/
def pyErrIsException : PyErr → Bool
  | PyErr.systemExit _ => false
  | _ => true

/-- Model of `traceback.format_exc()` for a caught error. -/
def formatExc : PyErr → String
  | PyErr.runtimeError m => "Traceback (most recent call last): RuntimeError: " ++ m
  | PyErr.fileExistsError m => "Traceback (most recent call last): FileExistsError: " ++ m
  | PyErr.systemExit c => "Traceback (most recent call last): SystemExit: " ++ toString c
  | PyErr.exn t => "Traceback (most recent call last): " ++ t

/-! ## requires_program -/

/-- helpers.py `requires_program(func, program, program_name=None)`:
the wrapper first runs `which program` (its success is the `installed`
input); on failure it raises a RuntimeError naming `program_name`
(defaulting to `program`) and never calls `func`; otherwise it calls
`func` and implicitly returns `None`, discarding the value of `func`.
The returned Bool records whether `func` was invoked. -/
def requiresProgram {α β : Type} (installed : Bool) (program : String)
    (program_name : Option String) (f : α → β) (x : α) :
    Except PyErr (Option β) × Bool :=
  let pn := program_name.getD program
  if installed = false then
    (Except.error (PyErr.runtimeError
      ("This function requires " ++ pn ++ ", which does not appear to be installed")),
     false)
  else
    -- `func(*args, **kwargs)` is called and its value discarded (no return)
    let _ := f x
    (Except.ok none, true)

/-! ## The ScriptHelper execution context and its observable effects -/

/-- A standard-stream target as passed to `subprocess.run`:
`subprocess.DEVNULL` or an open file object (identified by a handle). -/
inductive StdTgt where
  | devnull
  | handle (n : Nat)
deriving DecidableEq

/-- A lifecycle callback registered on the helper: an id plus the error
it raises when invoked (none when it returns normally). -/
structure Callback where
  cbId : Nat
  err : Option PyErr
deriving DecidableEq

/-- Observable effects of helpers.py: terminal/log writes (`click.echo`
with the given message, prefix, color, color-prefix-only flag, and
destination file), subprocess spawns (with resolved stdout/stderr, `none`
meaning inherit), the log/scratch lifecycle of `with_helper`, and
callback invocations. -/
inductive Event where
  | echoed (msg pfx : String) (color : Option String) (prefixOnly : Bool)
      (toLog : Option Nat)
  | spawned (args : List String) (shell : Bool) (stdoutT stderrT : Option StdTgt)
  | mkdirLogParent
  | scratchCreated
  | scratchRemoved
  | logOpened
  | logClosed
  | callbackInvoked (n : Nat)
deriving DecidableEq

/-- helpers.py `ScriptHelper` attributes (after `__init__`). -/
structure ScriptHelper where
  file_log : Option Nat
  verbosity : Nat
  quiet : Bool
  dry_run : Bool
  overwrite : Bool
  dpath_tmp : Option String
  prefix_run : String
  prefix_error : String
  done_message : String
  callbacks_always : List Callback
  callbacks_success : List Callback
  callback_failure : List Callback
deriving DecidableEq

/-- helpers.py `ScriptHelper.__init__`: quiet overrides verbosity (forced
to 0 at construction), and None callback lists default to fresh empty
lists. -/
def mkScriptHelper (file_log : Option Nat) (verbosity : Nat)
    (quiet dry_run overwrite : Bool) (dpath_tmp : Option String)
    (prefix_run prefix_error done_message : String)
    (callbacks_always callbacks_success callbacks_failure : Option (List Callback)) :
    ScriptHelper :=
  let verbosity := if quiet then 0 else verbosity
  { file_log := file_log
    verbosity := verbosity
    quiet := quiet
    dry_run := dry_run
    overwrite := overwrite
    dpath_tmp := dpath_tmp
    prefix_run := prefix_run
    prefix_error := prefix_error
    done_message := done_message
    callbacks_always := callbacks_always.getD []
    callbacks_success := callbacks_success.getD []
    callback_failure := callbacks_failure.getD [] }

/-- helpers.py `ScriptHelper.echo`: one `click.echo` write to stdout or
the log file, recorded as an event. -/
def ScriptHelper.echo (h : ScriptHelper) (message pfx : String)
    (text_color : Option String) (color_prefix_only : Bool) : Event :=
  Event.echoed message pfx text_color color_prefix_only h.file_log

/-- helpers.py `ScriptHelper.print_separation` (`"-" * 20`). -/
def ScriptHelper.print_separation (h : ScriptHelper) : Event :=
  h.echo (strRepeat "-" 20) "" none false

/-- helpers.py `ScriptHelper.done`. -/
def ScriptHelper.done (h : ScriptHelper) : Event :=
  h.echo h.done_message "" (some "green") false

/-- helpers.py `ScriptHelper.print_error`: echo the error-prefixed
message, then `sys.exit(exit_code)` (modelled as raising `SystemExit`)
when the exit flag is set. -/
def ScriptHelper.print_error (h : ScriptHelper) (message : String)
    (exit_code : Int) (exitFlag : Bool) : List Event × Option PyErr :=
  ([h.echo message h.prefix_error (some "red") false],
   if exitFlag then some (PyErr.systemExit exit_code) else none)

/-- helpers.py `ScriptHelper.run_command`: filter empty tokens, print the
joined command (unless silent, when verbosity > 0 or dry-run), and spawn
the subprocess only when `force or not dry_run`, resolving default
stdout/stderr targets exactly as the source does; a non-zero exit status
becomes a RuntimeError carrying the joined command and the exit code.
The exit status of the subprocess is supplied by the `oracle` argument. -/
def ScriptHelper.run_command (h : ScriptHelper) (oracle : List String → Int)
    (args : List String) (shell : Bool) (stdout stderr : Option StdTgt)
    (silent force : Bool) : List Event × Option PyErr :=
  let args := args.filter (fun a => a ≠ "")
  let args_str := String.intercalate " " args
  let echoes : List Event :=
    if silent = false ∧ (0 < h.verbosity ∨ h.dry_run = true) then
      [h.echo args_str PREFIX_RUN (some "yellow") h.dry_run]
    else []
  if force = true ∨ h.dry_run = false then
    let p :=
      if stdout = none then
        if silent = true ∨ h.verbosity < 2 then (some StdTgt.devnull, some StdTgt.devnull)
        else (h.file_log.map StdTgt.handle, stderr)
      else (stdout, stderr)
    let q := if p.2 = none then (p.1, h.file_log.map StdTgt.handle) else p
    let code := oracle args
    if code = 0 then
      (echoes ++ [Event.spawned args shell q.1 q.2], none)
    else
      (echoes ++ [Event.spawned args shell q.1 q.2],
       some (PyErr.runtimeError ("\nCommand " ++ args_str ++ " returned " ++ toString code)))
  else (echoes, none)

/-- helpers.py `ScriptHelper.timestamp`: run `date` with `force=True`. -/
def ScriptHelper.timestamp (h : ScriptHelper) (oracle : List String → Int) :
    List Event × Option PyErr :=
  h.run_command oracle ["date"] false none none false true

/-- helpers.py `ScriptHelper.check_dir`: when the directory exists
(`dirContents = some files`, the names of the files found recursively)
and overwrite is off, raise FileExistsError if any file (optionally
filtered by name prefix) is present; otherwise return the path. -/
def ScriptHelper.check_dir (h : ScriptHelper) (dpath : PyPath)
    (dirContents : Option (List String)) (pfx : Option String) :
    Except PyErr PyPath :=
  match dirContents with
  | some files =>
      if h.overwrite = false then
        let files_in_dir :=
          match pfx with
          | some p => files.filter (fun f => strStartsWith f p)
          | none => files
        if files_in_dir.length ≠ 0 then
          Except.error (PyErr.fileExistsError
            ("Directory " ++ pyPathStr dpath ++
             " exists and/or contains expected result files. Use --overwrite to overwrite."))
        else Except.ok dpath
      else Except.ok dpath
  | none => Except.ok dpath

/-! ## with_helper: the scoped-run wrapper -/

/-- Sequential composition of two effectful steps: the second runs only
when the first did not raise. -/
def andThen (a b : List Event × Option PyErr) : List Event × Option PyErr :=
  match a.2 with
  | some e => (a.1, some e)
  | none => (a.1 ++ b.1, b.2)

/-- Invoke a list of callbacks in order; a raising callback stops the
iteration and its error propagates (Python `for callback in ...`). -/
def runCallbacks : List Callback → List Event × Option PyErr
  | [] => ([], none)
  | c :: rest =>
    match c.err with
    | some e => ([Event.callbackInvoked c.cbId], some e)
    | none =>
      let r := runCallbacks rest
      (Event.callbackInvoked c.cbId :: r.1, r.2)

/-- The behaviour of the wrapped task `func(helper=helper, **kwargs)`:
the events it emits, the error it raises (if any), and the callback
lists it has registered on the helper by the time control leaves it. -/
structure TaskResult where
  events : List Event
  err : Option PyErr
  cbSuccess : List Callback
  cbFailure : List Callback
  cbAlways : List Callback

/-- The keyword arguments of `_with_helper` (the decorated entry point). -/
structure RunCfg where
  with_log : Bool
  verbosity : Nat
  quiet : Bool
  dry_run : Bool
  overwrite : Bool
  exit_on_error : Bool
  prefix_run : String
  prefix_error : String

/-- The `ScriptHelper` constructed by `_with_helper` (log handle 0 when a
log file is given, scratch directory from `TemporaryDirectory`). -/
def withHelperInit (cfg : RunCfg) (dpathTmp : String) : ScriptHelper :=
  mkScriptHelper (if cfg.with_log then some 0 else none) cfg.verbosity cfg.quiet
    cfg.dry_run cfg.overwrite (some dpathTmp) cfg.prefix_run cfg.prefix_error
    DONE_MESSAGE none none none

/-- The opening `helper.timestamp()` of the try block. -/
def withHelperTs1 (cfg : RunCfg) (dpathTmp : String) (oracle : List String → Int) :
    List Event × Option PyErr :=
  (withHelperInit cfg dpathTmp).timestamp oracle

/-- The helper with the callback lists the task registered on it; when
the opening timestamp raised, `func` never ran and the lists are still
the fresh empty ones. -/
def withHelperRegs (cfg : RunCfg) (dpathTmp : String)
    (task : ScriptHelper → TaskResult) (oracle : List String → Int) : ScriptHelper :=
  let helper := withHelperInit cfg dpathTmp
  let t := task helper
  if (withHelperTs1 cfg dpathTmp oracle).2 = none then
    { helper with
        callbacks_success := t.cbSuccess
        callback_failure := t.cbFailure
        callbacks_always := t.cbAlways }
  else helper

/-- The try block of `_with_helper`: opening timestamp and separator,
the task, then the success callbacks and the done message. -/
def withHelperBody (cfg : RunCfg) (dpathTmp : String)
    (task : ScriptHelper → TaskResult) (oracle : List String → Int) :
    List Event × Option PyErr :=
  let regs := withHelperRegs cfg dpathTmp task oracle
  let t := task (withHelperInit cfg dpathTmp)
  andThen (withHelperTs1 cfg dpathTmp oracle)
    (andThen ([regs.print_separation], none)
      (andThen (t.events, t.err)
        (andThen (runCallbacks regs.callbacks_success)
          ([regs.done], none))))

/-- The try block together with the `except Exception` handler: on a
caught exception, the failure callbacks run, then `print_error` (with
`sys.exit` when `exit_on_error`), then the original error is re-raised;
an error raised inside the handler replaces the original one. -/
def withHelperAfterTry (cfg : RunCfg) (dpathTmp : String)
    (task : ScriptHelper → TaskResult) (oracle : List String → Int) :
    List Event × Option PyErr :=
  let regs := withHelperRegs cfg dpathTmp task oracle
  let body := withHelperBody cfg dpathTmp task oracle
  match body.2 with
  | none => body
  | some e =>
    if pyErrIsException e = true then
      let handler := andThen (runCallbacks regs.callback_failure)
        (regs.print_error (formatExc e) 1 cfg.exit_on_error)
      match handler.2 with
      | some e2 => (body.1 ++ handler.1, some e2)
      | none => (body.1 ++ handler.1, some e)
    else body

/-- The `finally` block: always callbacks, closing separator, closing
timestamp. -/
def withHelperFin (cfg : RunCfg) (dpathTmp : String)
    (task : ScriptHelper → TaskResult) (oracle : List String → Int) :
    List Event × Option PyErr :=
  let regs := withHelperRegs cfg dpathTmp task oracle
  andThen (runCallbacks regs.callbacks_always)
    (andThen ([regs.print_separation], none)
      (regs.timestamp oracle))

/-- helpers.py `with_helper`: make the parent directory of the log, enter the
scratch-directory and log-file contexts, run the try/except/finally
block, and let the context managers close the log and remove the scratch
directory on every path out (an error raised in `finally` replaces the
pending one, as in Python). -/
def withHelper (cfg : RunCfg) (dpathTmp : String)
    (task : ScriptHelper → TaskResult) (oracle : List String → Int) :
    List Event × Option PyErr :=
  let pre : List Event := if cfg.with_log then [Event.mkdirLogParent] else []
  let afterTry := withHelperAfterTry cfg dpathTmp task oracle
  let fin := withHelperFin cfg dpathTmp task oracle
  let afterFinally : List Event × Option PyErr :=
    match fin.2 with
    | some ef => (afterTry.1 ++ fin.1, some ef)
    | none => (afterTry.1 ++ fin.1, afterTry.2)
  (pre ++ [Event.scratchCreated] ++ (if cfg.with_log then [Event.logOpened] else []) ++
     afterFinally.1 ++ (if cfg.with_log then [Event.logClosed] else []) ++
     [Event.scratchRemoved],
   afterFinally.2)

/-- The event trace of one scoped run. -/
def runTrace (cfg : RunCfg) (dpathTmp : String)
    (task : ScriptHelper → TaskResult) (oracle : List String → Int) : List Event :=
  (withHelper cfg dpathTmp task oracle).1

/-! ## Helper lemmas -/

theorem strmk_append (a b : List Char) : String.mk a ++ String.mk b = String.mk (a ++ b) := rfl

theorem strmk_toList (s : String) : String.mk s.toList = s := rfl

/-- The list-level stem/suffix split recombines to the input. -/
theorem pyNameSplitL_recombine (l : List Char) :
    (pyNameSplitL l).1 ++ (pyNameSplitL l).2 = l := by
  unfold pyNameSplitL
  cases lastDotIdx l with
  | none => simp
  | some i =>
    by_cases hc : 0 < i ∧ i < l.length - 1
    · simp [hc]
    · simp [hc]

/-- The stem/suffix split of a file name recombines to the name. -/
theorem pyNameSplit_recombine (n : String) : (pyNameSplit n).1 ++ (pyNameSplit n).2 = n := by
  unfold pyNameSplit
  rw [strmk_append, pyNameSplitL_recombine]
  exact strmk_toList n

theorem stem_append_suffix (p : PyPath) : p.stem ++ p.suffix = p.name :=
  pyNameSplit_recombine p.name

/-- A string of the form `a ++ "-" ++ b ++ c` is nonempty. -/
theorem mid_dash_ne_empty (a b c : String) : a ++ "-" ++ b ++ c ≠ "" := by
  intro h
  have hlen := congrArg String.length h
  simp [String.length_append] at hlen
  exact absurd hlen.1.1.2 (by decide)

/-! ## C8 -/

/-- C8: with default arguments (separator "-", no explicit extension),
`add_suffix` keeps the parent directory and inserts the suffix (joined by
"-") immediately before the file extension — the new name is
`stem ++ "-" ++ suffix ++ extension` where `stem ++ extension` is the old
name; and `add_suffix p "-a"` equals `add_suffix p "a"` for every path,
since a leading separator is stripped from the suffix.  (The model treats
file names as single path components, so the suffix is assumed
slash-free.) -/
theorem add_suffix_inserts_before_ext (p : PyPath) (s : String)
    (hsep : strStartsWith s "-" = false)
    (_hslash : s.toList.all (fun c => c ≠ '/') = true) :
    (add_suffix p s (some SEP_SUFFIX) none).parent = p.parent ∧
    (add_suffix p s (some SEP_SUFFIX) none).name = p.stem ++ "-" ++ s ++ p.suffix ∧
    p.stem ++ p.suffix = p.name ∧
    add_suffix p "-a" (some SEP_SUFFIX) none = add_suffix p "a" (some SEP_SUFFIX) none := by
  have hred : add_suffix p s (some SEP_SUFFIX) none =
      ⟨p.parent.parts ++ [p.stem ++ "-" ++ s ++ p.suffix]⟩ := by
    simp only [add_suffix, SEP_SUFFIX, hsep, Bool.false_eq_true, if_false]
    simp only [PyPath.join, if_neg (mid_dash_ne_empty p.stem s p.suffix)]
  refine ⟨?_, ?_, stem_append_suffix p, ?_⟩
  · rw [hred]
    simp [PyPath.parent, List.dropLast_concat]
  · rw [hred]
    simp [PyPath.name, List.getLast?_concat]
  · have h1 : strStartsWith "-a" "-" = true := by decide
    have h2 : strStartsWith "a" "-" = false := by decide
    have hd : strDrop "-a" (strLen "-") = "a" := by decide
    simp only [add_suffix, SEP_SUFFIX, h1, h2, hd, Bool.false_eq_true, if_false, if_true]

theorem add_suffix_inserts_before_ext_witness :
    (add_suffix ⟨["sub", "img.nii"]⟩ "mask" (some SEP_SUFFIX) none).parent = PyPath.parent ⟨["sub", "img.nii"]⟩ ∧
    (add_suffix ⟨["sub", "img.nii"]⟩ "mask" (some SEP_SUFFIX) none).name =
      PyPath.stem ⟨["sub", "img.nii"]⟩ ++ "-" ++ "mask" ++ PyPath.suffix ⟨["sub", "img.nii"]⟩ ∧
    PyPath.stem ⟨["sub", "img.nii"]⟩ ++ PyPath.suffix ⟨["sub", "img.nii"]⟩ = PyPath.name ⟨["sub", "img.nii"]⟩ ∧
    add_suffix ⟨["sub", "img.nii"]⟩ "-a" (some SEP_SUFFIX) none =
      add_suffix ⟨["sub", "img.nii"]⟩ "a" (some SEP_SUFFIX) none :=
  add_suffix_inserts_before_ext ⟨["sub", "img.nii"]⟩ "mask" (by decide) (by decide)

/-! ## C9 -/

/-- C9: `add_suffix("img.nii.gz", "brain", ext=".nii.gz")` is the path
`img-brain.nii.gz`: the supplied multi-part extension is stripped from
the path string and re-appended after the suffix, overriding the
automatic single-part suffix detection. -/
theorem add_suffix_custom_ext_concrete :
    add_suffix ⟨["img.nii.gz"]⟩ "brain" (some SEP_SUFFIX) (some ".nii.gz") =
      ⟨["img-brain.nii.gz"]⟩ ∧
    pyPathStr (add_suffix ⟨["img.nii.gz"]⟩ "brain" (some SEP_SUFFIX) (some ".nii.gz")) =
      "img-brain.nii.gz" := by
  constructor <;> decide

/-! ## C7 -/

/-- C7: a ScriptHelper constructed with quiet=true has effective
verbosity 0 whatever verbosity was requested; the override happens once
in the constructor, so mutating the quiet attribute afterwards leaves the
stored verbosity unchanged. -/
theorem quiet_forces_verbosity_at_construction :
    (∀ fl v dr ow dt pr pe dm ca cs cf,
      (mkScriptHelper fl v true dr ow dt pr pe dm ca cs cf).verbosity = 0) ∧
    (∀ (h : ScriptHelper) (b : Bool),
      ({ h with quiet := b } : ScriptHelper).verbosity = h.verbosity) := by
  constructor
  · intro fl v dr ow dt pr pe dm ca cs cf
    rfl
  · intro h b
    rfl

/-! ## C10 -/

/-- C10: a `requires_program`-wrapped function first checks the search
path: when the program is absent the wrapper raises a RuntimeError whose
message names the program (through `program_name`, which defaults to the
program itself) and the wrapped function is never invoked; when the
program is present the function is invoked but the wrapper returns None,
discarding the return value of the function whatever it is. -/
theorem requires_program_gate {α β : Type} (installed : Bool) (program : String)
    (program_name : Option String) (f : α → β) (x : α) :
    (installed = false →
      (requiresProgram installed program program_name f x).2 = false ∧
      ∃ msg, (requiresProgram installed program program_name f x).1 =
          Except.error (PyErr.runtimeError msg) ∧
        List.IsInfix (program_name.getD program).data msg.data) ∧
    (installed = true →
      (requiresProgram installed program program_name f x).2 = true ∧
      (requiresProgram installed program program_name f x).1 = Except.ok none) := by
  constructor
  · intro hi
    subst hi
    refine ⟨rfl,
      "This function requires " ++ program_name.getD program ++
        ", which does not appear to be installed", rfl, ?_⟩
    refine ⟨("This function requires " : String).data,
      (", which does not appear to be installed" : String).data, ?_⟩
    simp [String.data_append]
  · intro hi
    subst hi
    exact ⟨rfl, rfl⟩

theorem requires_program_gate_witness :
    (((requiresProgram false "mincinfo" none (fun n : Nat => n + 1) 3).2 = false ∧
      ∃ msg, (requiresProgram false "mincinfo" none (fun n : Nat => n + 1) 3).1 =
          Except.error (PyErr.runtimeError msg) ∧
        List.IsInfix ((none : Option String).getD "mincinfo").data msg.data)) ∧
    (((requiresProgram true "mincinfo" none (fun n : Nat => n + 1) 3).2 = true ∧
      (requiresProgram true "mincinfo" none (fun n : Nat => n + 1) 3).1 = Except.ok none)) :=
  ⟨(requires_program_gate false "mincinfo" none (fun n : Nat => n + 1) 3).1 rfl,
   (requires_program_gate true "mincinfo" none (fun n : Nat => n + 1) 3).2 rfl⟩
/-! ## C6 -/

/-- Reduction of `check_dir` on an existing directory. -/
theorem check_dir_some (h : ScriptHelper) (dpath : PyPath) (files : List String)
    (pfx : Option String) :
    h.check_dir dpath (some files) pfx =
      if h.overwrite = false then
        (if (match pfx with
            | some p => files.filter (fun f => strStartsWith f p)
            | none => files).length ≠ 0 then
          Except.error (PyErr.fileExistsError
            ("Directory " ++ pyPathStr dpath ++
             " exists and/or contains expected result files. Use --overwrite to overwrite."))
        else Except.ok dpath)
      else Except.ok dpath := rfl

/-- The files `check_dir` counts: all of them, or only those whose name
starts with the given prefix. -/
theorem check_dir_files_cond (files : List String) (pfx : Option String) :
    ((match pfx with
      | some p => files.filter (fun f => strStartsWith f p)
      | none => files) ≠ []) ↔
    ∃ f ∈ files, ∀ p, pfx = some p → strStartsWith f p = true := by
  cases pfx with
  | none =>
    show files ≠ [] ↔ _
    cases files with
    | nil => simp
    | cons a l => simp
  | some p =>
    show files.filter (fun f => strStartsWith f p) ≠ [] ↔ _
    constructor
    · intro hne
      rcases List.exists_mem_of_ne_nil _ hne with ⟨f, hf⟩
      have hp := List.of_mem_filter hf
      exact ⟨f, List.mem_of_mem_filter hf, fun q hq => by cases hq; exact hp⟩
    · rintro ⟨f, hmem, hpred⟩ hnil
      have hf : f ∈ files.filter (fun f => strStartsWith f p) :=
        List.mem_filter.mpr ⟨hmem, hpred p rfl⟩
      rw [hnil] at hf
      exact absurd hf (List.not_mem_nil f)

/-- C6: `check_dir` raises (a FileExistsError, the embedding of the
PreconditionError of the spec) exactly when the directory exists, overwrite is
off, and at least one file in it (restricted to the given name prefix
when one is supplied) is present; in every other case it returns the
input path unchanged. -/
theorem check_dir_raises_iff (h : ScriptHelper) (dpath : PyPath)
    (dirContents : Option (List String)) (pfx : Option String) :
    ((∃ e, h.check_dir dpath dirContents pfx = Except.error e) ↔
      (h.overwrite = false ∧ ∃ files, dirContents = some files ∧
        ∃ f ∈ files, ∀ p, pfx = some p → strStartsWith f p = true)) ∧
    (¬(h.overwrite = false ∧ ∃ files, dirContents = some files ∧
        ∃ f ∈ files, ∀ p, pfx = some p → strStartsWith f p = true) →
      h.check_dir dpath dirContents pfx = Except.ok dpath) := by
  cases dirContents with
  | none =>
    refine ⟨⟨?_, ?_⟩, ?_⟩
    · rintro ⟨e, he⟩
      exact absurd he (by simp [ScriptHelper.check_dir])
    · rintro ⟨-, files, hfiles, -⟩
      exact absurd hfiles (by simp)
    · intro _
      rfl
  | some files =>
    by_cases how : h.overwrite = false
    · by_cases hne : (match pfx with
          | some p => files.filter (fun f => strStartsWith f p)
          | none => files) ≠ []
      · have hcond := (check_dir_files_cond files pfx).mp hne
        have hlen : (match pfx with
            | some p => files.filter (fun f => strStartsWith f p)
            | none => files).length ≠ 0 := by
          intro h0
          exact hne (List.eq_nil_of_length_eq_zero h0)
        have herr : h.check_dir dpath (some files) pfx = Except.error
            (PyErr.fileExistsError
              ("Directory " ++ pyPathStr dpath ++
               " exists and/or contains expected result files. Use --overwrite to overwrite.")) := by
          rw [check_dir_some, if_pos how, if_pos hlen]
        refine ⟨⟨?_, ?_⟩, ?_⟩
        · intro _
          exact ⟨how, files, rfl, hcond⟩
        · intro _
          exact ⟨_, herr⟩
        · intro hnot
          exact absurd ⟨how, files, rfl, hcond⟩ hnot
      · have hcond : ¬ ∃ f ∈ files, ∀ p, pfx = some p → strStartsWith f p = true := by
          intro hc
          exact hne ((check_dir_files_cond files pfx).mpr hc)
        have hlen : ¬ (match pfx with
            | some p => files.filter (fun f => strStartsWith f p)
            | none => files).length ≠ 0 := by
          push_neg at hne ⊢
          rw [hne]
          rfl
        have hok : h.check_dir dpath (some files) pfx = Except.ok dpath := by
          rw [check_dir_some, if_pos how, if_neg hlen]
        refine ⟨⟨?_, ?_⟩, ?_⟩
        · rintro ⟨e, he⟩
          rw [hok] at he
          exact absurd he (by simp)
        · rintro ⟨-, files', hfiles', hcond'⟩
          cases hfiles'
          exact absurd hcond' hcond
        · intro _
          exact hok
    · have hok : h.check_dir dpath (some files) pfx = Except.ok dpath := by
        rw [check_dir_some, if_neg how]
      refine ⟨⟨?_, ?_⟩, ?_⟩
      · rintro ⟨e, he⟩
        rw [hok] at he
        exact absurd he (by simp)
      · rintro ⟨hov, -⟩
        exact absurd hov how
      · intro _
        exact hok

theorem check_dir_raises_iff_witness :
    (((∃ e, ScriptHelper.check_dir (mkScriptHelper none 2 false false false none
          PREFIX_RUN PREFIX_ERROR DONE_MESSAGE none none none)
          ⟨["out"]⟩ (some ["result.txt"]) none = Except.error e) ↔
      ((mkScriptHelper none 2 false false false none PREFIX_RUN PREFIX_ERROR
          DONE_MESSAGE none none none).overwrite = false ∧
        ∃ files, (some ["result.txt"] : Option (List String)) = some files ∧
          ∃ f ∈ files, ∀ p, (none : Option String) = some p → strStartsWith f p = true))) ∧
    ScriptHelper.check_dir (mkScriptHelper none 2 false false true none
        PREFIX_RUN PREFIX_ERROR DONE_MESSAGE none none none)
        ⟨["out"]⟩ (some ["result.txt"]) none = Except.ok ⟨["out"]⟩ :=
  ⟨(check_dir_raises_iff (mkScriptHelper none 2 false false false none
      PREFIX_RUN PREFIX_ERROR DONE_MESSAGE none none none)
      ⟨["out"]⟩ (some ["result.txt"]) none).1,
   (check_dir_raises_iff (mkScriptHelper none 2 false false true none
      PREFIX_RUN PREFIX_ERROR DONE_MESSAGE none none none)
      ⟨["out"]⟩ (some ["result.txt"]) none).2
     (by rintro ⟨hov, -⟩; exact absurd hov (by decide))⟩

/-! ## C1 -/

/-- C1: with dry-run on and force off, `run_command` never spawns a
subprocess and never fails, whatever the verbosity, silent flag, or
stream targets: the whole trace is at most the one echo of the joined
command line (prefixed with the run prefix, prefix-only colorized). -/
theorem run_command_dry_run_never_spawns (h : ScriptHelper) (oracle : List String → Int)
    (args : List String) (shell : Bool) (stdout stderr : Option StdTgt) (silent : Bool)
    (hdry : h.dry_run = true) :
    (h.run_command oracle args shell stdout stderr silent false).2 = none ∧
    ∀ e ∈ (h.run_command oracle args shell stdout stderr silent false).1,
      e = Event.echoed (String.intercalate " " (args.filter (fun a => a ≠ "")))
            PREFIX_RUN (some "yellow") true h.file_log := by
  have hred : h.run_command oracle args shell stdout stderr silent false =
      ((if silent = false ∧ (0 < h.verbosity ∨ h.dry_run = true) then
          [Event.echoed (String.intercalate " " (args.filter (fun a => a ≠ "")))
            PREFIX_RUN (some "yellow") h.dry_run h.file_log]
        else []), none) := by
    simp only [ScriptHelper.run_command, ScriptHelper.echo]
    rw [if_neg]
    rintro (hf | hd)
    · exact Bool.false_ne_true hf
    · rw [hdry] at hd
      exact Bool.false_ne_true hd.symm
  rw [hred]
  refine ⟨rfl, ?_⟩
  intro e he
  by_cases hc : silent = false ∧ (0 < h.verbosity ∨ h.dry_run = true)
  · rw [if_pos hc] at he
    rw [List.mem_singleton.mp he, hdry]
  · rw [if_neg hc] at he
    exact absurd he (List.not_mem_nil e)

theorem run_command_dry_run_never_spawns_witness :
    (ScriptHelper.run_command (mkScriptHelper none 3 false true false none PREFIX_RUN
        PREFIX_ERROR DONE_MESSAGE none none none) (fun _ => 0)
        ["echo", "hello"] false none none false false).2 = none ∧
    ∀ e ∈ (ScriptHelper.run_command (mkScriptHelper none 3 false true false none PREFIX_RUN
        PREFIX_ERROR DONE_MESSAGE none none none) (fun _ => 0)
        ["echo", "hello"] false none none false false).1,
      e = Event.echoed (String.intercalate " " (["echo", "hello"].filter (fun a => a ≠ "")))
            PREFIX_RUN (some "yellow") true
            (mkScriptHelper none 3 false true false none PREFIX_RUN
              PREFIX_ERROR DONE_MESSAGE none none none).file_log :=
  run_command_dry_run_never_spawns (mkScriptHelper none 3 false true false none PREFIX_RUN
    PREFIX_ERROR DONE_MESSAGE none none none) (fun _ => 0)
    ["echo", "hello"] false none none false rfl

/-! ## C4 -/

/-- C4: an executing `run_command` whose subprocess exits non-zero fails
with an error (the embedding of the CommandExecutionError of the spec, a
Python RuntimeError) whose message carries both the joined command string
and the observed exit code, and the error is returned to the caller
rather than swallowed. -/
theorem run_command_nonzero_exit_propagates (h : ScriptHelper) (oracle : List String → Int)
    (args : List String) (shell : Bool) (stdout stderr : Option StdTgt)
    (silent force : Bool)
    (hexec : force = true ∨ h.dry_run = false)
    (hcode : oracle (args.filter (fun a => a ≠ "")) ≠ 0) :
    ∃ msg, (h.run_command oracle args shell stdout stderr silent force).2 =
        some (PyErr.runtimeError msg) ∧
      List.IsInfix (String.intercalate " " (args.filter (fun a => a ≠ ""))).data msg.data ∧
      List.IsInfix (toString (oracle (args.filter (fun a => a ≠ "")))).data msg.data := by
  refine ⟨"\nCommand " ++ String.intercalate " " (args.filter (fun a => a ≠ "")) ++
    " returned " ++ toString (oracle (args.filter (fun a => a ≠ ""))), ?_, ?_, ?_⟩
  · simp only [ScriptHelper.run_command, ScriptHelper.echo, hexec, if_true, hcode, if_false]
  · exact ⟨("\nCommand " : String).data,
      (" returned " ++ toString (oracle (args.filter (fun a => a ≠ "")))).data,
      by simp [String.data_append]⟩
  · exact ⟨("\nCommand " ++ String.intercalate " " (args.filter (fun a => a ≠ "")) ++
      " returned " : String).data, [],
      by simp [String.data_append]⟩

theorem run_command_nonzero_exit_propagates_witness :
    ∃ msg, (ScriptHelper.run_command (mkScriptHelper none 2 false false false none PREFIX_RUN
        PREFIX_ERROR DONE_MESSAGE none none none) (fun _ => 1)
        ["false"] false none none false false).2 =
        some (PyErr.runtimeError msg) ∧
      List.IsInfix (String.intercalate " " (["false"].filter (fun a => a ≠ ""))).data msg.data ∧
      List.IsInfix (toString ((fun _ => (1 : Int)) (["false"].filter (fun a => a ≠ "")))).data
        msg.data :=
  run_command_nonzero_exit_propagates (mkScriptHelper none 2 false false false none PREFIX_RUN
    PREFIX_ERROR DONE_MESSAGE none none none) (fun _ => 1)
    ["false"] false none none false false (Or.inr rfl) (by decide)

/-! ## C5 -/

/-- C5 counterexample: an executing call (dry-run off) at verbosity 2
with silent=true, no explicit stdout, and an explicitly supplied stderr
target (file handle 5) spawns the subprocess with stderr redirected to
DEVNULL — the explicit stderr target is not honored, because the
silent/low-verbosity branch overwrites stderr together with stdout. -/
theorem run_command_stderr_not_honored_cex :
    (ScriptHelper.run_command (mkScriptHelper (some 0) 2 false false false none PREFIX_RUN
        PREFIX_ERROR DONE_MESSAGE none none none) (fun _ => 0)
        ["prog"] false none (some (StdTgt.handle 5)) true false).1 =
      [Event.spawned ["prog"] false (some StdTgt.devnull) (some StdTgt.devnull)] ∧
    ∀ so, Event.spawned ["prog"] false so (some (StdTgt.handle 5)) ∉
      (ScriptHelper.run_command (mkScriptHelper (some 0) 2 false false false none PREFIX_RUN
        PREFIX_ERROR DONE_MESSAGE none none none) (fun _ => 0)
        ["prog"] false none (some (StdTgt.handle 5)) true false).1 := by
  have h1 : (ScriptHelper.run_command (mkScriptHelper (some 0) 2 false false false none
      PREFIX_RUN PREFIX_ERROR DONE_MESSAGE none none none) (fun _ => 0)
      ["prog"] false none (some (StdTgt.handle 5)) true false).1 =
      [Event.spawned ["prog"] false (some StdTgt.devnull) (some StdTgt.devnull)] := by
    decide
  refine ⟨h1, ?_⟩
  intro so hmem
  rw [h1] at hmem
  have h2 := List.mem_singleton.mp hmem
  simp at h2

/-- C5 (amended): for executing calls, when no explicit stdout target is
given, stdout is discarded (DEVNULL) when silent or verbosity < 2 — and
in that case stderr is forced to DEVNULL as well, even when explicitly
supplied — and routed to the log sink when not silent and verbosity ≥ 2;
in every other situation, stderr defaults to the log sink when not given
and an explicit stderr target is honored; an explicit stdout target is
always honored. -/
theorem run_command_io_routing (h : ScriptHelper) (oracle : List String → Int)
    (args : List String) (shell : Bool) (stdout stderr : Option StdTgt)
    (silent force : Bool)
    (hexec : force = true ∨ h.dry_run = false) :
    ∃ so se,
      Event.spawned (args.filter (fun a => a ≠ "")) shell so se ∈
        (h.run_command oracle args shell stdout stderr silent force).1 ∧
      ((stdout = none ∧ (silent = true ∨ h.verbosity < 2)) →
        so = some StdTgt.devnull ∧ se = some StdTgt.devnull) ∧
      ((stdout = none ∧ silent = false ∧ 2 ≤ h.verbosity) →
        so = h.file_log.map StdTgt.handle ∧
        (stderr = none → se = h.file_log.map StdTgt.handle) ∧
        (∀ t, stderr = some t → se = some t)) ∧
      (∀ t, stdout = some t →
        so = some t ∧
        (stderr = none → se = h.file_log.map StdTgt.handle) ∧
        (∀ t2, stderr = some t2 → se = some t2)) := by
  have hred : ∀ (p : Option StdTgt × Option StdTgt),
      (if stdout = none then
        if silent = true ∨ h.verbosity < 2 then (some StdTgt.devnull, some StdTgt.devnull)
        else (h.file_log.map StdTgt.handle, stderr)
      else (stdout, stderr)) = p →
      Event.spawned (args.filter (fun a => a ≠ "")) shell
          (if p.2 = none then (p.1, h.file_log.map StdTgt.handle) else p).1
          (if p.2 = none then (p.1, h.file_log.map StdTgt.handle) else p).2 ∈
        (h.run_command oracle args shell stdout stderr silent force).1 := by
    intro p hp
    simp only [ScriptHelper.run_command, ScriptHelper.echo, hexec, if_true, hp]
    rw [apply_ite Prod.fst, ite_self]
    simp
  refine ⟨(if (if stdout = none then
        if silent = true ∨ h.verbosity < 2 then (some StdTgt.devnull, some StdTgt.devnull)
        else (h.file_log.map StdTgt.handle, stderr)
      else (stdout, stderr)).2 = none then
        ((if stdout = none then
          if silent = true ∨ h.verbosity < 2 then (some StdTgt.devnull, some StdTgt.devnull)
          else (h.file_log.map StdTgt.handle, stderr)
        else (stdout, stderr)).1, h.file_log.map StdTgt.handle)
      else (if stdout = none then
        if silent = true ∨ h.verbosity < 2 then (some StdTgt.devnull, some StdTgt.devnull)
        else (h.file_log.map StdTgt.handle, stderr)
      else (stdout, stderr))).1, _, hred _ rfl, ?_, ?_, ?_⟩
  · rintro ⟨hso, hsv⟩
    rw [hso, if_pos rfl, if_pos hsv]
    constructor <;> rfl
  · rintro ⟨hso, hsi, hv⟩
    have hnv : ¬(silent = true ∨ h.verbosity < 2) := by
      rintro (hs | hlt)
      · rw [hsi] at hs
        exact Bool.false_ne_true hs
      · omega
    rw [hso, if_pos rfl, if_neg hnv]
    refine ⟨?_, ?_, ?_⟩
    · cases stderr <;> rfl
    · intro hse
      rw [hse]
      rfl
    · intro t hse
      rw [hse]
      rfl
  · intro t hso
    have hne : ¬(stdout = none) := by
      rw [hso]
      exact Option.some_ne_none t
    rw [if_neg hne, hso]
    refine ⟨?_, ?_, ?_⟩
    · cases stderr <;> rfl
    · intro hse
      rw [hse]
      rfl
    · intro t2 hse
      rw [hse]
      rfl

theorem run_command_io_routing_witness :
    ∃ so se,
      Event.spawned (["prog"].filter (fun a => a ≠ "")) false so se ∈
        (ScriptHelper.run_command (mkScriptHelper (some 0) 2 false false false none PREFIX_RUN
          PREFIX_ERROR DONE_MESSAGE none none none) (fun _ => 0)
          ["prog"] false none (some (StdTgt.handle 5)) true false).1 ∧
      (((none : Option StdTgt) = none ∧ (true = true ∨
          (mkScriptHelper (some 0) 2 false false false none PREFIX_RUN
            PREFIX_ERROR DONE_MESSAGE none none none).verbosity < 2)) →
        so = some StdTgt.devnull ∧ se = some StdTgt.devnull) ∧
      (((none : Option StdTgt) = none ∧ true = false ∧ 2 ≤
          (mkScriptHelper (some 0) 2 false false false none PREFIX_RUN
            PREFIX_ERROR DONE_MESSAGE none none none).verbosity) →
        so = (mkScriptHelper (some 0) 2 false false false none PREFIX_RUN
            PREFIX_ERROR DONE_MESSAGE none none none).file_log.map StdTgt.handle ∧
        ((some (StdTgt.handle 5) : Option StdTgt) = none →
          se = (mkScriptHelper (some 0) 2 false false false none PREFIX_RUN
            PREFIX_ERROR DONE_MESSAGE none none none).file_log.map StdTgt.handle) ∧
        (∀ t, (some (StdTgt.handle 5) : Option StdTgt) = some t → se = some t)) ∧
      (∀ t, (none : Option StdTgt) = some t →
        so = some t ∧
        ((some (StdTgt.handle 5) : Option StdTgt) = none →
          se = (mkScriptHelper (some 0) 2 false false false none PREFIX_RUN
            PREFIX_ERROR DONE_MESSAGE none none none).file_log.map StdTgt.handle) ∧
        (∀ t2, (some (StdTgt.handle 5) : Option StdTgt) = some t2 → se = some t2)) :=
  run_command_io_routing (mkScriptHelper (some 0) 2 false false false none PREFIX_RUN
    PREFIX_ERROR DONE_MESSAGE none none none) (fun _ => 0)
    ["prog"] false none (some (StdTgt.handle 5)) true false (Or.inr rfl)

/-! ## with_helper lemmas -/

/-- An event that is not a callback invocation. -/
def evNotCb (ev : Event) : Prop := ∀ n, ev ≠ Event.callbackInvoked n

theorem mem_andThen (a b : List Event × Option PyErr) (ev : Event)
    (h : ev ∈ (andThen a b).1) : ev ∈ a.1 ∨ ev ∈ b.1 := by
  unfold andThen at h
  cases ha : a.2 with
  | none =>
    rw [ha] at h
    exact List.mem_append.mp h
  | some e =>
    rw [ha] at h
    exact Or.inl h

theorem andThen_none_fst (a b : List Event × Option PyErr) (ha : a.2 = none) :
    andThen a b = (a.1 ++ b.1, b.2) := by
  unfold andThen
  rw [ha]

theorem runCallbacks_all_ok (l : List Callback) (h : ∀ cb ∈ l, cb.err = none) :
    runCallbacks l = (l.map (fun cb => Event.callbackInvoked cb.cbId), none) := by
  induction l with
  | nil => rfl
  | cons c rest ih =>
    have hc : c.err = none := h c (by simp)
    simp only [runCallbacks, hc]
    rw [ih (fun cb hcb => h cb (by simp [hcb]))]
    simp

theorem runCallbacks_mem (l : List Callback) (ev : Event)
    (h : ev ∈ (runCallbacks l).1) : ∃ cb ∈ l, ev = Event.callbackInvoked cb.cbId := by
  induction l with
  | nil => simp [runCallbacks] at h
  | cons c rest ih =>
    cases hc : c.err with
    | some e =>
      simp only [runCallbacks, hc] at h
      rw [List.mem_singleton.mp h]
      exact ⟨c, by simp, rfl⟩
    | none =>
      simp only [runCallbacks, hc] at h
      rcases List.mem_cons.mp h with h | h
      · rw [h]
        exact ⟨c, by simp, rfl⟩
      · rcases ih h with ⟨cb, hcb, hev⟩
        exact ⟨cb, by simp [hcb], hev⟩

/-- Every event emitted by `run_command` is an echo or a spawn. -/
theorem run_command_events_shape (h : ScriptHelper) (oracle : List String → Int)
    (args : List String) (shell : Bool) (stdout stderr : Option StdTgt)
    (silent force : Bool) :
    ∀ ev ∈ (h.run_command oracle args shell stdout stderr silent force).1,
      (∃ m p c b fl, ev = Event.echoed m p c b fl) ∨
      ∃ a sh so se, ev = Event.spawned a sh so se := by
  intro ev hev
  simp only [ScriptHelper.run_command, ScriptHelper.echo] at hev
  have hecho : ∀ e2 ∈ (if silent = false ∧ (0 < h.verbosity ∨ h.dry_run = true) then
      [Event.echoed (String.intercalate " " (args.filter (fun a => a ≠ "")))
        PREFIX_RUN (some "yellow") h.dry_run h.file_log]
    else ([] : List Event)),
      (∃ m p c b fl, e2 = Event.echoed m p c b fl) ∨
      ∃ a sh so se, e2 = Event.spawned a sh so se := by
    intro e2 he2
    by_cases hc : silent = false ∧ (0 < h.verbosity ∨ h.dry_run = true)
    · rw [if_pos hc] at he2
      rw [List.mem_singleton.mp he2]
      exact Or.inl ⟨_, _, _, _, _, rfl⟩
    · rw [if_neg hc] at he2
      exact absurd he2 (List.not_mem_nil e2)
  by_cases hex : force = true ∨ h.dry_run = false
  · rw [if_pos hex, apply_ite Prod.fst, ite_self] at hev
    rcases List.mem_append.mp hev with hev | hev
    · exact hecho ev hev
    · rw [List.mem_singleton.mp hev]
      exact Or.inr ⟨_, _, _, _, rfl⟩
  · rw [if_neg hex] at hev
    exact hecho ev hev

theorem run_command_no_cb (h : ScriptHelper) (oracle : List String → Int)
    (args : List String) (shell : Bool) (stdout stderr : Option StdTgt)
    (silent force : Bool) :
    ∀ ev ∈ (h.run_command oracle args shell stdout stderr silent force).1, evNotCb ev := by
  intro ev hev n
  rcases run_command_events_shape h oracle args shell stdout stderr silent force ev hev with
    ⟨m, p, c, b, fl, rfl⟩ | ⟨a, sh, so, se, rfl⟩ <;> simp

/-- The opening timestamp succeeds when `date` exits 0. -/
theorem withHelperTs1_ok (cfg : RunCfg) (dpathTmp : String) (oracle : List String → Int)
    (hdate : oracle ["date"] = 0) :
    (withHelperTs1 cfg dpathTmp oracle).2 = none := by
  have hfilter : (["date"].filter (fun a => a ≠ "")) = ["date"] := by decide
  unfold withHelperTs1 ScriptHelper.timestamp
  simp only [ScriptHelper.run_command, ScriptHelper.echo, hfilter, hdate]
  simp

/-- The event list of a scoped run, independent of where errors occur. -/
theorem withHelper_fst (cfg : RunCfg) (dpathTmp : String)
    (task : ScriptHelper → TaskResult) (oracle : List String → Int) :
    (withHelper cfg dpathTmp task oracle).1 =
      (if cfg.with_log then [Event.mkdirLogParent] else []) ++ [Event.scratchCreated] ++
      (if cfg.with_log then [Event.logOpened] else []) ++
      ((withHelperAfterTry cfg dpathTmp task oracle).1 ++
        (withHelperFin cfg dpathTmp task oracle).1) ++
      (if cfg.with_log then [Event.logClosed] else []) ++ [Event.scratchRemoved] := by
  unfold withHelper
  cases hf : (withHelperFin cfg dpathTmp task oracle).2 <;> simp [hf]

/-! ## C2 -/

/-- A run configuration without a log file. -/
def cfgNoLog : RunCfg :=
  { with_log := false, verbosity := 2, quiet := false, dry_run := false,
    overwrite := false, exit_on_error := false,
    prefix_run := PREFIX_RUN, prefix_error := PREFIX_ERROR }

/-- A task that returns normally but registers a raising always-callback
(id 0) followed by a normal one (id 1). -/
def taskRaisingAlways : ScriptHelper → TaskResult := fun _ =>
  { events := [], err := none, cbSuccess := [], cbFailure := [],
    cbAlways := [⟨0, some (PyErr.runtimeError "always-callback failure")⟩, ⟨1, none⟩] }

/-- C2 counterexample: in a scoped run whose first always-callback
raises, the second always-callback is never invoked (and the closing
separator and timestamp are also skipped), so finalization does not
fully execute even though the task returned normally. -/
theorem with_helper_finalization_cex :
    Event.callbackInvoked 1 ∉ runTrace cfgNoLog "tmp" taskRaisingAlways (fun _ => 0) := by
  decide

/-- C2 (amended): every scoped run creates and removes the scratch
directory and (when a log file is given) opens and closes the log sink,
whatever the task does; and provided no always-callback itself raises,
the epilogue runs in full: every always-callback in registration order
(after any success or failure callbacks), then the closing separator,
then the closing timestamp, followed by the log close and the scratch
removal. -/
theorem with_helper_finalization (cfg : RunCfg) (dpathTmp : String)
    (task : ScriptHelper → TaskResult) (oracle : List String → Int) :
    Event.scratchCreated ∈ runTrace cfg dpathTmp task oracle ∧
    Event.scratchRemoved ∈ runTrace cfg dpathTmp task oracle ∧
    (cfg.with_log = true → Event.logOpened ∈ runTrace cfg dpathTmp task oracle ∧
      Event.logClosed ∈ runTrace cfg dpathTmp task oracle) ∧
    ((∀ cb ∈ (withHelperRegs cfg dpathTmp task oracle).callbacks_always, cb.err = none) →
      ∃ evs, runTrace cfg dpathTmp task oracle = evs ++
        ((withHelperRegs cfg dpathTmp task oracle).callbacks_always.map
          (fun cb => Event.callbackInvoked cb.cbId)) ++
        [(withHelperRegs cfg dpathTmp task oracle).print_separation] ++
        ((withHelperRegs cfg dpathTmp task oracle).timestamp oracle).1 ++
        (if cfg.with_log then [Event.logClosed] else []) ++ [Event.scratchRemoved]) := by
  have hfst := withHelper_fst cfg dpathTmp task oracle
  refine ⟨?_, ?_, ?_, ?_⟩
  · rw [runTrace, hfst]
    simp
  · rw [runTrace, hfst]
    simp
  · intro hl
    rw [runTrace, hfst]
    simp [hl]
  · intro hcb
    refine ⟨(if cfg.with_log then [Event.mkdirLogParent] else []) ++ [Event.scratchCreated] ++
      (if cfg.with_log then [Event.logOpened] else []) ++
      (withHelperAfterTry cfg dpathTmp task oracle).1, ?_⟩
    rw [runTrace, hfst]
    have hfin : (withHelperFin cfg dpathTmp task oracle).1 =
        ((withHelperRegs cfg dpathTmp task oracle).callbacks_always.map
          (fun cb => Event.callbackInvoked cb.cbId)) ++
        ([(withHelperRegs cfg dpathTmp task oracle).print_separation] ++
          ((withHelperRegs cfg dpathTmp task oracle).timestamp oracle).1) := by
      simp only [withHelperFin]
      rw [runCallbacks_all_ok _ hcb]
      simp [andThen]
    rw [hfin]
    simp [List.append_assoc]

/-- A log-writing run configuration used as a witness input. -/
def cfgWithLog : RunCfg :=
  { with_log := true, verbosity := 2, quiet := false, dry_run := false,
    overwrite := false, exit_on_error := true,
    prefix_run := PREFIX_RUN, prefix_error := PREFIX_ERROR }

/-- A task registering one well-behaved callback of each kind. -/
def taskSmoke : ScriptHelper → TaskResult := fun _ =>
  { events := [], err := none, cbSuccess := [⟨3, none⟩], cbFailure := [⟨4, none⟩],
    cbAlways := [⟨5, none⟩] }

theorem with_helper_finalization_witness :
    Event.scratchCreated ∈ runTrace cfgWithLog "tmp" taskSmoke (fun _ => 0) ∧
    Event.scratchRemoved ∈ runTrace cfgWithLog "tmp" taskSmoke (fun _ => 0) ∧
    (Event.logOpened ∈ runTrace cfgWithLog "tmp" taskSmoke (fun _ => 0) ∧
      Event.logClosed ∈ runTrace cfgWithLog "tmp" taskSmoke (fun _ => 0)) ∧
    ∃ evs, runTrace cfgWithLog "tmp" taskSmoke (fun _ => 0) = evs ++
      ((withHelperRegs cfgWithLog "tmp" taskSmoke (fun _ => 0)).callbacks_always.map
        (fun cb => Event.callbackInvoked cb.cbId)) ++
      [(withHelperRegs cfgWithLog "tmp" taskSmoke (fun _ => 0)).print_separation] ++
      ((withHelperRegs cfgWithLog "tmp" taskSmoke (fun _ => 0)).timestamp (fun _ => 0)).1 ++
      (if cfgWithLog.with_log then [Event.logClosed] else []) ++ [Event.scratchRemoved] :=
  ⟨(with_helper_finalization cfgWithLog "tmp" taskSmoke (fun _ => 0)).1,
   (with_helper_finalization cfgWithLog "tmp" taskSmoke (fun _ => 0)).2.1,
   (with_helper_finalization cfgWithLog "tmp" taskSmoke (fun _ => 0)).2.2.1 rfl,
   (with_helper_finalization cfgWithLog "tmp" taskSmoke (fun _ => 0)).2.2.2 (by decide)⟩

/-! ## C3 scenario lemmas -/

theorem andThen_some (a b : List Event × Option PyErr) (e : PyErr) (ha : a.2 = some e) :
    andThen a b = (a.1, some e) := by
  unfold andThen
  rw [ha]

theorem withHelperTs1_no_cb (cfg : RunCfg) (dpathTmp : String) (oracle : List String → Int) :
    ∀ ev ∈ (withHelperTs1 cfg dpathTmp oracle).1, evNotCb ev := by
  intro ev hev
  simp only [withHelperTs1, ScriptHelper.timestamp] at hev
  exact run_command_no_cb _ _ _ _ _ _ _ _ ev hev

theorem mem_if_singleton {c : Prop} [Decidable c] (x ev : Event)
    (h : ev ∈ (if c then [x] else [])) : ev = x := by
  by_cases hc : c
  · rw [if_pos hc] at h
    exact List.mem_singleton.mp h
  · rw [if_neg hc] at h
    exact absurd h (List.not_mem_nil ev)

/-- Events of the finally block are always-callback invocations or
non-callback events. -/
theorem withHelperFin_mem (cfg : RunCfg) (dpathTmp : String)
    (task : ScriptHelper → TaskResult) (oracle : List String → Int) (ev : Event)
    (h : ev ∈ (withHelperFin cfg dpathTmp task oracle).1) :
    (∃ cb ∈ (withHelperRegs cfg dpathTmp task oracle).callbacks_always,
      ev = Event.callbackInvoked cb.cbId) ∨ evNotCb ev := by
  simp only [withHelperFin] at h
  rcases mem_andThen _ _ _ h with h | h
  · exact Or.inl (runCallbacks_mem _ _ h)
  · rcases mem_andThen _ _ _ h with h | h
    · rw [List.mem_singleton.mp h]
      refine Or.inr fun n => ?_
      simp [ScriptHelper.print_separation, ScriptHelper.echo]
    · simp only [ScriptHelper.timestamp] at h
      exact Or.inr (run_command_no_cb _ _ _ _ _ _ _ _ ev h)

/-- With the task registrations in effect (opening timestamp succeeded),
the registered callback lists are those returned by the task. -/
theorem withHelperRegs_eq (cfg : RunCfg) (dpathTmp : String)
    (task : ScriptHelper → TaskResult) (oracle : List String → Int)
    (hdate : oracle ["date"] = 0) :
    (withHelperRegs cfg dpathTmp task oracle).callbacks_success =
        (task (withHelperInit cfg dpathTmp)).cbSuccess ∧
    (withHelperRegs cfg dpathTmp task oracle).callback_failure =
        (task (withHelperInit cfg dpathTmp)).cbFailure ∧
    (withHelperRegs cfg dpathTmp task oracle).callbacks_always =
        (task (withHelperInit cfg dpathTmp)).cbAlways := by
  have hts := withHelperTs1_ok cfg dpathTmp oracle hdate
  simp only [withHelperRegs]
  rw [if_pos hts]
  exact ⟨rfl, rfl, rfl⟩

/-- The try block on the success path: timestamp, separator, the task
events, the success-callback invocations in order, the done message. -/
theorem withHelperBody_success (cfg : RunCfg) (dpathTmp : String)
    (task : ScriptHelper → TaskResult) (oracle : List String → Int)
    (hdate : oracle ["date"] = 0)
    (hterr : (task (withHelperInit cfg dpathTmp)).err = none)
    (hsok : ∀ cb ∈ (task (withHelperInit cfg dpathTmp)).cbSuccess, cb.err = none) :
    withHelperBody cfg dpathTmp task oracle =
      ((withHelperTs1 cfg dpathTmp oracle).1 ++
        ([(withHelperRegs cfg dpathTmp task oracle).print_separation] ++
          ((task (withHelperInit cfg dpathTmp)).events ++
            (((task (withHelperInit cfg dpathTmp)).cbSuccess.map
              (fun cb => Event.callbackInvoked cb.cbId)) ++
              [(withHelperRegs cfg dpathTmp task oracle).done]))), none) := by
  have hts := withHelperTs1_ok cfg dpathTmp oracle hdate
  have hregs := (withHelperRegs_eq cfg dpathTmp task oracle hdate).1
  simp only [withHelperBody]
  rw [hregs, runCallbacks_all_ok _ hsok]
  rw [andThen_none_fst _ _ hts, andThen_none_fst _ _ rfl, andThen_none_fst _ _ hterr,
    andThen_none_fst _ _ rfl]

/-- On the success path the except handler does not run. -/
theorem withHelperAfterTry_success (cfg : RunCfg) (dpathTmp : String)
    (task : ScriptHelper → TaskResult) (oracle : List String → Int)
    (hdate : oracle ["date"] = 0)
    (hterr : (task (withHelperInit cfg dpathTmp)).err = none)
    (hsok : ∀ cb ∈ (task (withHelperInit cfg dpathTmp)).cbSuccess, cb.err = none) :
    withHelperAfterTry cfg dpathTmp task oracle = withHelperBody cfg dpathTmp task oracle := by
  simp only [withHelperAfterTry]
  rw [withHelperBody_success cfg dpathTmp task oracle hdate hterr hsok]

/-- The try block on the failure path: timestamp, separator, the task
events, then the error of the task. -/
theorem withHelperBody_failure (cfg : RunCfg) (dpathTmp : String)
    (task : ScriptHelper → TaskResult) (oracle : List String → Int)
    (hdate : oracle ["date"] = 0) (e : PyErr)
    (hterr : (task (withHelperInit cfg dpathTmp)).err = some e) :
    withHelperBody cfg dpathTmp task oracle =
      ((withHelperTs1 cfg dpathTmp oracle).1 ++
        ([(withHelperRegs cfg dpathTmp task oracle).print_separation] ++
          (task (withHelperInit cfg dpathTmp)).events), some e) := by
  have hts := withHelperTs1_ok cfg dpathTmp oracle hdate
  simp only [withHelperBody]
  rw [andThen_none_fst _ _ hts, andThen_none_fst _ _ rfl,
    andThen_some ((task (withHelperInit cfg dpathTmp)).events,
      (task (withHelperInit cfg dpathTmp)).err) _ e hterr]

/-- The try/except block on the failure path: the body events followed
by those of the handler (failure callbacks, then the error print). -/
theorem withHelperAfterTry_failure_fst (cfg : RunCfg) (dpathTmp : String)
    (task : ScriptHelper → TaskResult) (oracle : List String → Int)
    (hdate : oracle ["date"] = 0) (e : PyErr)
    (hterr : (task (withHelperInit cfg dpathTmp)).err = some e)
    (hex : pyErrIsException e = true) :
    (withHelperAfterTry cfg dpathTmp task oracle).1 =
      ((withHelperTs1 cfg dpathTmp oracle).1 ++
        ([(withHelperRegs cfg dpathTmp task oracle).print_separation] ++
          (task (withHelperInit cfg dpathTmp)).events)) ++
      (andThen (runCallbacks (withHelperRegs cfg dpathTmp task oracle).callback_failure)
        ((withHelperRegs cfg dpathTmp task oracle).print_error (formatExc e) 1
          cfg.exit_on_error)).1 := by
  simp only [withHelperAfterTry]
  rw [withHelperBody_failure cfg dpathTmp task oracle hdate e hterr]
  simp only [hex, if_true]
  cases hh : (andThen (runCallbacks (withHelperRegs cfg dpathTmp task oracle).callback_failure)
      ((withHelperRegs cfg dpathTmp task oracle).print_error (formatExc e) 1
        cfg.exit_on_error)).2 <;> simp [hh]

/-! ## C3 -/

/-- C3 (amended): success and failure callbacks are invoked
order-preservingly in their own phase, and the two sets are mutually
exclusive in every run in which the success phase itself does not raise:
when the task returns normally and no success callback raises, the
success callbacks run in registration order and no failure callback is
ever invoked; when the task raises an exception, the failure callbacks
run (in registration order when none of them raises) and no success
callback is ever invoked.  (When a success callback raises, the except
handler runs the failure callbacks in the same run — see the
counterexample.)  Callback ids are assumed distinct across lists so that
invocation events identify their callback. -/
theorem with_helper_callback_exclusivity (cfg : RunCfg) (dpathTmp : String)
    (task : ScriptHelper → TaskResult) (oracle : List String → Int)
    (hclean : ∀ ev ∈ (task (withHelperInit cfg dpathTmp)).events, evNotCb ev)
    (hdate : oracle ["date"] = 0) :
    ((task (withHelperInit cfg dpathTmp)).err = none →
      (∀ cb ∈ (task (withHelperInit cfg dpathTmp)).cbSuccess, cb.err = none) →
      List.IsInfix ((task (withHelperInit cfg dpathTmp)).cbSuccess.map
        (fun cb => Event.callbackInvoked cb.cbId)) (runTrace cfg dpathTmp task oracle) ∧
      ∀ cb ∈ (task (withHelperInit cfg dpathTmp)).cbFailure,
        (∀ cb2 ∈ (task (withHelperInit cfg dpathTmp)).cbSuccess, cb.cbId ≠ cb2.cbId) →
        (∀ cb2 ∈ (task (withHelperInit cfg dpathTmp)).cbAlways, cb.cbId ≠ cb2.cbId) →
        Event.callbackInvoked cb.cbId ∉ runTrace cfg dpathTmp task oracle) ∧
    (∀ e, (task (withHelperInit cfg dpathTmp)).err = some e → pyErrIsException e = true →
      ((∀ cb ∈ (task (withHelperInit cfg dpathTmp)).cbFailure, cb.err = none) →
        List.IsInfix ((task (withHelperInit cfg dpathTmp)).cbFailure.map
          (fun cb => Event.callbackInvoked cb.cbId)) (runTrace cfg dpathTmp task oracle)) ∧
      ∀ cb ∈ (task (withHelperInit cfg dpathTmp)).cbSuccess,
        (∀ cb2 ∈ (task (withHelperInit cfg dpathTmp)).cbFailure, cb.cbId ≠ cb2.cbId) →
        (∀ cb2 ∈ (task (withHelperInit cfg dpathTmp)).cbAlways, cb.cbId ≠ cb2.cbId) →
        Event.callbackInvoked cb.cbId ∉ runTrace cfg dpathTmp task oracle) := by
  have hfst := withHelper_fst cfg dpathTmp task oracle
  have hregs := withHelperRegs_eq cfg dpathTmp task oracle hdate
  constructor
  · intro hterr hsok
    have htr : runTrace cfg dpathTmp task oracle =
        (if cfg.with_log then [Event.mkdirLogParent] else []) ++ [Event.scratchCreated] ++
        (if cfg.with_log then [Event.logOpened] else []) ++
        (((withHelperTs1 cfg dpathTmp oracle).1 ++
          ([(withHelperRegs cfg dpathTmp task oracle).print_separation] ++
            ((task (withHelperInit cfg dpathTmp)).events ++
              (((task (withHelperInit cfg dpathTmp)).cbSuccess.map
                (fun cb => Event.callbackInvoked cb.cbId)) ++
                [(withHelperRegs cfg dpathTmp task oracle).done])))) ++
          (withHelperFin cfg dpathTmp task oracle).1) ++
        (if cfg.with_log then [Event.logClosed] else []) ++ [Event.scratchRemoved] := by
      rw [runTrace, hfst, withHelperAfterTry_success cfg dpathTmp task oracle hdate hterr hsok,
        withHelperBody_success cfg dpathTmp task oracle hdate hterr hsok]
    constructor
    · refine ⟨(if cfg.with_log then [Event.mkdirLogParent] else []) ++ [Event.scratchCreated] ++
        (if cfg.with_log then [Event.logOpened] else []) ++
        (withHelperTs1 cfg dpathTmp oracle).1 ++
        [(withHelperRegs cfg dpathTmp task oracle).print_separation] ++
        (task (withHelperInit cfg dpathTmp)).events,
        [(withHelperRegs cfg dpathTmp task oracle).done] ++
        (withHelperFin cfg dpathTmp task oracle).1 ++
        (if cfg.with_log then [Event.logClosed] else []) ++ [Event.scratchRemoved], ?_⟩
      rw [htr]
      simp [List.append_assoc]
    · intro cb hcbF hdS hdA hmem
      rw [htr] at hmem
      simp only [List.mem_append, List.mem_singleton] at hmem
      rcases hmem with ((((hm | hm) | hm) | ((hm | (hm | (hm | (hm | hm)))) | hm)) | hm) | hm
      · exact Event.noConfusion (mem_if_singleton _ _ hm)
      · exact Event.noConfusion hm
      · exact Event.noConfusion (mem_if_singleton _ _ hm)
      · exact (withHelperTs1_no_cb cfg dpathTmp oracle _ hm) cb.cbId rfl
      · simp [ScriptHelper.print_separation, ScriptHelper.echo] at hm
      · exact (hclean _ hm) cb.cbId rfl
      · rcases List.mem_map.mp hm with ⟨cb2, hcb2, heq⟩
        exact hdS cb2 hcb2 (Event.callbackInvoked.inj heq).symm
      · simp [ScriptHelper.done, ScriptHelper.echo] at hm
      · rcases withHelperFin_mem cfg dpathTmp task oracle _ hm with ⟨cb2, hcb2, heq⟩ | hnc
        · rw [hregs.2.2] at hcb2
          exact hdA cb2 hcb2 (Event.callbackInvoked.inj heq)
        · exact hnc cb.cbId rfl
      · exact Event.noConfusion (mem_if_singleton _ _ hm)
      · exact Event.noConfusion hm
  · intro e hterr hex
    have htrf : runTrace cfg dpathTmp task oracle =
        (if cfg.with_log then [Event.mkdirLogParent] else []) ++ [Event.scratchCreated] ++
        (if cfg.with_log then [Event.logOpened] else []) ++
        ((((withHelperTs1 cfg dpathTmp oracle).1 ++
          ([(withHelperRegs cfg dpathTmp task oracle).print_separation] ++
            (task (withHelperInit cfg dpathTmp)).events)) ++
          (andThen (runCallbacks (withHelperRegs cfg dpathTmp task oracle).callback_failure)
            ((withHelperRegs cfg dpathTmp task oracle).print_error (formatExc e) 1
              cfg.exit_on_error)).1) ++
          (withHelperFin cfg dpathTmp task oracle).1) ++
        (if cfg.with_log then [Event.logClosed] else []) ++ [Event.scratchRemoved] := by
      rw [runTrace, hfst,
        withHelperAfterTry_failure_fst cfg dpathTmp task oracle hdate e hterr hex]
    constructor
    · intro hfok
      have hhandler : (andThen (runCallbacks
            (withHelperRegs cfg dpathTmp task oracle).callback_failure)
          ((withHelperRegs cfg dpathTmp task oracle).print_error (formatExc e) 1
            cfg.exit_on_error)).1 =
          ((task (withHelperInit cfg dpathTmp)).cbFailure.map
            (fun cb => Event.callbackInvoked cb.cbId)) ++
          ((withHelperRegs cfg dpathTmp task oracle).print_error (formatExc e) 1
            cfg.exit_on_error).1 := by
        rw [hregs.2.1, runCallbacks_all_ok _ hfok, andThen_none_fst _ _ rfl]
      refine ⟨(if cfg.with_log then [Event.mkdirLogParent] else []) ++ [Event.scratchCreated] ++
        (if cfg.with_log then [Event.logOpened] else []) ++
        (withHelperTs1 cfg dpathTmp oracle).1 ++
        [(withHelperRegs cfg dpathTmp task oracle).print_separation] ++
        (task (withHelperInit cfg dpathTmp)).events,
        ((withHelperRegs cfg dpathTmp task oracle).print_error (formatExc e) 1
          cfg.exit_on_error).1 ++
        (withHelperFin cfg dpathTmp task oracle).1 ++
        (if cfg.with_log then [Event.logClosed] else []) ++ [Event.scratchRemoved], ?_⟩
      rw [htrf, hhandler]
      simp [List.append_assoc]
    · intro cb hcbS hdF hdA hmem
      rw [htrf] at hmem
      simp only [List.mem_append, List.mem_singleton] at hmem
      rcases hmem with ((((hm | hm) | hm) | (((hm | (hm | hm)) | hm) | hm)) | hm) | hm
      · exact Event.noConfusion (mem_if_singleton _ _ hm)
      · exact Event.noConfusion hm
      · exact Event.noConfusion (mem_if_singleton _ _ hm)
      · exact (withHelperTs1_no_cb cfg dpathTmp oracle _ hm) cb.cbId rfl
      · simp [ScriptHelper.print_separation, ScriptHelper.echo] at hm
      · exact (hclean _ hm) cb.cbId rfl
      · rcases mem_andThen _ _ _ hm with hm | hm
        · rcases runCallbacks_mem _ _ hm with ⟨cb2, hcb2, heq⟩
          rw [hregs.2.1] at hcb2
          exact hdF cb2 hcb2 (Event.callbackInvoked.inj heq)
        · simp [ScriptHelper.print_error, ScriptHelper.echo] at hm
      · rcases withHelperFin_mem cfg dpathTmp task oracle _ hm with ⟨cb2, hcb2, heq⟩ | hnc
        · rw [hregs.2.2] at hcb2
          exact hdA cb2 hcb2 (Event.callbackInvoked.inj heq)
        · exact hnc cb.cbId rfl
      · exact Event.noConfusion (mem_if_singleton _ _ hm)
      · exact Event.noConfusion hm

/-- A task that returns normally but whose only success callback (id 10)
raises; it also registers a failure callback (id 20). -/
def taskRaisingSuccess : ScriptHelper → TaskResult := fun _ =>
  { events := [], err := none,
    cbSuccess := [⟨10, some (PyErr.runtimeError "success-callback failure")⟩],
    cbFailure := [⟨20, none⟩], cbAlways := [] }

/-- C3 counterexample: when a success callback raises, the except
handler runs the failure callbacks in the very same run, so both a
success callback (id 10) and a failure callback (id 20) are invoked —
the two sets are not mutually exclusive. -/
theorem with_helper_callback_exclusivity_cex :
    Event.callbackInvoked 10 ∈ runTrace cfgNoLog "tmp" taskRaisingSuccess (fun _ => 0) ∧
    Event.callbackInvoked 20 ∈ runTrace cfgNoLog "tmp" taskRaisingSuccess (fun _ => 0) := by
  decide

theorem with_helper_callback_exclusivity_witness :
    List.IsInfix ((taskSmoke (withHelperInit cfgNoLog "tmp")).cbSuccess.map
      (fun cb => Event.callbackInvoked cb.cbId))
      (runTrace cfgNoLog "tmp" taskSmoke (fun _ => 0)) ∧
    ∀ cb ∈ (taskSmoke (withHelperInit cfgNoLog "tmp")).cbFailure,
      (∀ cb2 ∈ (taskSmoke (withHelperInit cfgNoLog "tmp")).cbSuccess, cb.cbId ≠ cb2.cbId) →
      (∀ cb2 ∈ (taskSmoke (withHelperInit cfgNoLog "tmp")).cbAlways, cb.cbId ≠ cb2.cbId) →
      Event.callbackInvoked cb.cbId ∉ runTrace cfgNoLog "tmp" taskSmoke (fun _ => 0) :=
  (with_helper_callback_exclusivity cfgNoLog "tmp" taskSmoke (fun _ => 0)
    (fun ev hev => absurd hev (List.not_mem_nil ev)) rfl).1 rfl (by decide)
